import Mathlib

set_option maxRecDepth 8000

/-!
Verification development for `nchook.py`, a macOS Notification Center
database watcher that decodes binary-plist notification records, filters
and classifies them, posts qualifying events to a webhook, and persists a
monotone cursor (`last_rec_id`).

The Python source is shallowly embedded: pure functions become Lean
functions; a Python value that may be raised is modelled with `Except`;
dynamic (plist / JSON) values become inductive types.
-/

namespace Nchook

/-- Python exceptions that the embedded code can raise uncaught. -/
inductive PyExn where
  | attributeError
  | typeError
  | valueError
deriving DecidableEq, Repr

/-- A value produced by `plistlib.loads`.

`int` models Python numeric values (int/float/bool all support `+ int`);
`other` models non-numeric, non-container leaves (bytes, datetime, UID),
which raise `TypeError` when added to an int and have no `.get` method. -/
inductive PValue where
  | str (s : String)
  | int (n : Int)
  | dict (entries : List (String × PValue))
  | arr (xs : List PValue)
  | other

/-- Python `d.get(k)` on a dict, as association-list lookup. -/
def pyDictGet (entries : List (String × PValue)) (k : String) : Option PValue :=
  match entries with
  | [] => none
  | (k', v) :: rest => if k' = k then some v else pyDictGet rest k

/-- Constant `COCOA_TO_UNIX_OFFSET` (seconds between Unix epoch 1970 and Cocoa epoch 2001). -/
def COCOA_TO_UNIX_OFFSET : Int := 978307200

/-- The dict built by `parse_notification`: `app` and the nested `titl`,
`subt`, `body` values are kept as the dynamic values Python stores;
`timestamp` is the computed integer. -/
structure RawEvent where
  app : PValue
  title : PValue
  subtitle : PValue
  body : PValue
  timestamp : Int

/-- The `cocoa_date` handling in `parse_notification` (lines 197-201):
`None` gives timestamp 0; a numeric date gives `d + COCOA_TO_UNIX_OFFSET`;
a non-numeric value makes `cocoa_date + COCOA_TO_UNIX_OFFSET` raise
`TypeError`. -/
def cocoaTimestamp : Option PValue → Except PyExn Int
  | none => .ok 0
  | some (.int d) => .ok (d + COCOA_TO_UNIX_OFFSET)
  | some _ => .error .typeError

/-- Function `parse_notification(raw_data)` (lines 175-209).

The input is the outcome of the two chained `plistlib.loads` attempts:
`none` when both attempts raised (the function returns `None`), otherwise
the loaded value.  Only the two `loads` calls sit inside `try` blocks, so:

* a loaded value that is not a dict raises `AttributeError` at
  `plist.get("req", {})` (line 195);
* a present non-numeric `date` raises `TypeError` at line 199 (evaluated
  before the returned dict is built);
* a present non-dict `req` value raises `AttributeError` at
  `req.get("titl", "")` while building the returned dict (line 206).
-/
def parse_notification (loaded : Option PValue) : Except PyExn (Option RawEvent) :=
  match loaded with
  | none => .ok none
  | some plist =>
    match plist with
    | .dict entries =>
      let req := (pyDictGet entries "req").getD (.dict [])
      match cocoaTimestamp (pyDictGet entries "date") with
      | .error e => .error e
      | .ok ts =>
        match req with
        | .dict reqEntries =>
          .ok (some
            { app := (pyDictGet entries "app").getD (.str "")
              title := (pyDictGet reqEntries "titl").getD (.str "")
              subtitle := (pyDictGet reqEntries "subt").getD (.str "")
              body := (pyDictGet reqEntries "body").getD (.str "")
              timestamp := ts })
        | _ => .error .attributeError
    | _ => .error .attributeError

/-- A decoded notification as the filter/classifier layer sees it: the
string fields of the Event data model plus the reader's additions (the
join-resolved `app` and the `rec_id` key). -/
structure Notif where
  app : String
  title : String
  subtitle : String
  body : String
  timestamp : Int
  rec_id : Int
deriving DecidableEq, Repr

/-- The part of the loaded configuration the filter/delivery code reads:
`bundle_ids` (a set in Python, modelled as a list queried by membership)
and `webhook_url`. -/
structure Config where
  bundle_ids : List String
  webhook_url : String
deriving DecidableEq, Repr

/-- Python `str` whitespace for `str.strip()` with no argument. -/
def pyIsSpace (c : Char) : Bool :=
  c == ' ' || c == '\t' || c == '\n' || c == '\r' || c == '\x0b' || c == '\x0c'

/-- Python `s.strip()`: remove leading and trailing whitespace.  Strings
are modelled as their code-point sequences (`String.data`), matching
Python's view of `str`; the core `String.trim` is byte-position based and
is avoided. -/
def pyStrip (s : String) : String :=
  ⟨((s.data.dropWhile pyIsSpace).reverse.dropWhile pyIsSpace).reverse⟩

/-- Python `c in s` for a single-character needle `c`. -/
def pyContainsChar (s : String) (c : Char) : Bool :=
  s.data.contains c

/-- Python `s.startswith(pat)`. -/
def pyStartsWith (s pat : String) : Bool :=
  pat.data.isPrefixOf s.data

/-- Python `len(s)`. -/
def pyLen (s : String) : Nat :=
  s.data.length

/-- Python `s[-1]` guarded by non-emptiness (`None` for the empty string). -/
def pyLastChar (s : String) : Option Char :=
  s.data.getLast?

/-- Constant `NOISE_PATTERNS` (lines 420-442). -/
def NOISE_PATTERNS : List String :=
  [ "Liked", "Loved", "Laughed at", "Was surprised by", "Was sad at",
    "is calling you", "Missed call from", "Incoming call",
    "joined the meeting", "left the meeting", "Meeting started", "is presenting",
    "has been added", "has left", "has joined",
    "is typing" ]

/-- Constant `SENTENCE_ENDINGS` (line 445). -/
def SENTENCE_ENDINGS : List Char := ['.', '!', '?', '"', '\'', ')']

/-- FILT-01 (lines 448-450): only configured bundle IDs pass. -/
def passes_bundle_id_filter (notif : Notif) (bundle_ids : List String) : Bool :=
  bundle_ids.contains notif.app

/-- FILT-02 (lines 453-455): `bool(title.strip()) and bool(body.strip())`. -/
def passes_allowlist_filter (notif : Notif) : Bool :=
  !(pyStrip notif.title).data.isEmpty && !(pyStrip notif.body).data.isEmpty

/-- FILT-03 (lines 458-460). -/
def is_system_alert (notif : Notif) : Bool :=
  pyStrip notif.title == "Microsoft Teams"

/-- FILT-04 (lines 463-469); the `title` parameter is accepted and unused,
exactly as in the source. -/
def is_noise_notification (body : String) (title : String) : Bool :=
  let body_stripped := pyStrip body
  NOISE_PATTERNS.any fun pat =>
    pyStartsWith body_stripped pat || body_stripped == pat

/-- Function `passes_filter(notif, config)` (lines 472-491): the four-stage chain,
short-circuiting on the first rejecting stage. -/
def passes_filter (notif : Notif) (config : Config) : Bool :=
  if !passes_bundle_id_filter notif config.bundle_ids then false
  else if !passes_allowlist_filter notif then false
  else if is_system_alert notif then false
  else if is_noise_notification notif.body notif.title then false
  else true

/-- Function `classify_notification(notif)` (lines 494-523). -/
def classify_notification (notif : Notif) : String :=
  let subtitle := pyStrip notif.subtitle
  let body := notif.body
  if pyContainsChar body '@' then "mention"
  else if !subtitle.data.isEmpty
        && (pyContainsChar subtitle '|' || pyContainsChar subtitle '>') then
    "channel_message"
  else
    let title := pyStrip notif.title
    if !subtitle.data.isEmpty && subtitle != title then "channel_message"
    else "direct_message"

/-- Function `detect_truncation(body)` (lines 526-540): `body[-1]` is only reached
when `body` is truthy (non-empty), hence the `Option` on the last char. -/
def detect_truncation (body : String) : Bool :=
  if pyLen body < 150 then false
  else if (match pyLastChar body with
           | some c => SENTENCE_ENDINGS.contains c
           | none => false) then false
  else true

/-- A JSON value, as produced by `json.load`. -/
inductive Json where
  | num (n : Int)
  | str (s : String)
  | bool (b : Bool)
  | null
  | arr (xs : List Json)
  | obj (entries : List (String × Json))

/-- Content of a file on disk: either text that parses as JSON, or text on
which `json.load` raises `json.JSONDecodeError`. -/
inductive FileData where
  | json (j : Json)
  | garbled

/-- The filesystem visible to the cursor store: path contents, `none` for
an absent file. -/
def FS := String → Option FileData

/-- Python `d.get(k)` on a parsed JSON object. -/
def jsonGet (entries : List (String × Json)) (k : String) : Option Json :=
  match entries with
  | [] => none
  | (k', v) :: rest => if k' = k then some v else jsonGet rest k

/-- Python `int(x)` on a JSON-decoded value: ints pass through, bools are
numeric (`True` is 1), strings are parsed (raising `ValueError` when they
are not an integer literal), and `None`/lists/dicts raise `TypeError`. -/
def pyInt : Json → Except PyExn Int
  | .num n => .ok n
  | .bool b => .ok (if b then 1 else 0)
  | .str s => match s.toInt? with
              | some n => .ok n
              | none => .error .valueError
  | .null => .error .typeError
  | .arr _ => .error .typeError
  | .obj _ => .error .typeError

/-- Function `save_state(last_rec_id, state_path)` (lines 258-286): atomically
replaces the target with `{"last_rec_id": last_rec_id}`.  `ioFail` models
an `OSError` during the write-then-replace sequence, which is logged and
absorbed, leaving the old file in place. -/
def save_state (fs : FS) (last_rec_id : Int) (state_path : String)
    (ioFail : Bool) : FS :=
  if ioFail then fs
  else fun p =>
    if p = state_path then some (.json (.obj [("last_rec_id", .num last_rec_id)]))
    else fs p

/-- Function `load_state(state_path)` (lines 289-303).  The `except` clause catches
`FileNotFoundError`, `json.JSONDecodeError`, `KeyError`, `ValueError` and
`TypeError` (returning 0), but not the `AttributeError` that
`data.get(...)` raises when the file holds a JSON value that is not an
object. -/
def load_state (fs : FS) (state_path : String) : Except PyExn Int :=
  match fs state_path with
  | none => .ok 0
  | some .garbled => .ok 0
  | some (.json j) =>
    match j with
    | .obj entries =>
      match pyInt ((jsonGet entries "last_rec_id").getD (.num 0)) with
      | .ok n => .ok n
      | .error _ => .ok 0
    | _ => .error .attributeError

/-- Query `SELECT MAX(rec_id) FROM record` with the `NULL`-to-0 defaulting of
lines 319-321: the table is modelled by its list of `rec_id` values. -/
def dbMaxRecId (recIds : List Int) : Int :=
  match recIds.foldl (fun acc x =>
      match acc with
      | none => some x
      | some a => some (max a x)) none with
  | none => 0
  | some m => m

/-- Function `check_db_consistency(conn, persisted_rec_id)` (lines 310-331). -/
def check_db_consistency (recIds : List Int) (persisted_rec_id : Int) : Int :=
  if persisted_rec_id > dbMaxRecId recIds then 0
  else persisted_rec_id

/-- One row of the reader's JOIN query (lines 228-237): `r.rec_id`,
`r.data` (the blob, modelled by its `plistlib.loads` outcome) and
`a.identifier`.  `r.delivered_date` is also selected but never read. -/
structure Row where
  rec_id : Int
  data : Option PValue
  identifier : String

/-- Row comparison used to model `ORDER BY r.rec_id ASC`. -/
def rowLe (a b : Row) : Prop := a.rec_id ≤ b.rec_id

instance : DecidableRel rowLe := fun a b => Int.decLe a.rec_id b.rec_id

instance : IsTotal Row rowLe := ⟨fun a b => Int.le_total a.rec_id b.rec_id⟩

instance : IsTrans Row rowLe := ⟨fun _ _ _ h1 h2 => le_trans h1 h2⟩

/-- The row sequence returned by the SQL of lines 228-237:
`WHERE r.rec_id > ?`, `ORDER BY r.rec_id ASC`. -/
def sqlRows (table : List Row) (last_rec_id : Int) : List Row :=
  (table.filter (fun r => decide (last_rec_id < r.rec_id))).insertionSort rowLe

/-- A notification dict appended by the reader: the parsed event with
`app` overridden by the JOIN identifier and the added `rec_id` key. -/
structure RawNotif where
  app : String
  ev : RawEvent
  rec_id : Int

/-- The `for row in cursor` body of lines 238-248: parse each blob, skip
(with a logged warning) rows whose parse returns `None`, and let any
exception raised by `parse_notification` propagate (only
`sqlite3.OperationalError` is caught in the source). -/
def processRows : List Row → Except PyExn (List RawNotif)
  | [] => .ok []
  | row :: rest =>
    match parse_notification row.data with
    | .error e => .error e
    | .ok none => processRows rest
    | .ok (some ev) =>
      match processRows rest with
      | .error e => .error e
      | .ok l => .ok ({ app := row.identifier, ev := ev, rec_id := row.rec_id } :: l)

/-- Function `query_new_notifications(conn, last_rec_id)` (lines 216-251).

`failAt = some k` models a `sqlite3.OperationalError` raised after `k`
rows have been stepped (`k = 0`: the `execute` call itself fails); the
handler logs the error and the function returns the rows accumulated so
far.  `failAt = none` is a clean query. -/
def query_new_notifications (table : List Row) (failAt : Option Nat)
    (last_rec_id : Int) : Except PyExn (List RawNotif) :=
  let rows := sqlRows table last_rec_id
  match failAt with
  | none => processRows rows
  | some k => processRows (rows.take k)

/-- Whether the parsed fields consumed by the filter/delivery code are
Python strings.  The source keeps them dynamically typed; a non-string
field raises `AttributeError` at its first string-method use inside the
loop body. -/
def strFields (rn : RawNotif) : Bool :=
  (match rn.ev.title with | .str _ => true | _ => false)
  && (match rn.ev.subtitle with | .str _ => true | _ => false)
  && (match rn.ev.body with | .str _ => true | _ => false)

/-- View a reader dict as a string-field `Notif`.  Python defers the
dynamic-type check to the first string-method call on each field; the
embedding surfaces it when the fields are read, which leaves the pass's
cursor behaviour unchanged (an exception anywhere in the loop body aborts
the pass before the cursor update of lines 826-828). -/
def toNotif (rn : RawNotif) : Except PyExn Notif :=
  match rn.ev.title, rn.ev.subtitle, rn.ev.body with
  | .str t, .str s, .str b => .ok ⟨rn.app, t, s, b, rn.ev.timestamp, rn.rec_id⟩
  | _, _, _ => .error .attributeError

/-- One batch's `for notif in notifications` loop (lines 782-823) in
configured mode (`config` present, `dry_run = False`): skip events the
filter rejects; otherwise log, and when a webhook URL is configured,
classify, build the payload and POST it.  `deliverOk` gives each
attempt's `post_webhook` outcome; the source discards that boolean, so it
is only recorded in the returned attempt list
`(rec_id, message type, outcome)`. -/
def deliverLoop (notifs : List RawNotif) (config : Config)
    (deliverOk : Int → Bool) : Except PyExn (List (Int × String × Bool)) :=
  match notifs with
  | [] => .ok []
  | rn :: rest =>
    match toNotif rn with
    | .error e => .error e
    | .ok n =>
      if !passes_filter n config then deliverLoop rest config deliverOk
      else
        match deliverLoop rest config deliverOk with
        | .error e => .error e
        | .ok l =>
          if config.webhook_url.data.isEmpty then .ok l
          else .ok ((n.rec_id, classify_notification n, deliverOk n.rec_id) :: l)

/-- One pipeline pass of the `run_watcher` loop (lines 779-828), from the
query to the cursor update: `last_rec_id` and `persisted` are the
in-memory and on-disk cursors; `saveFail` models an absorbed `OSError`
inside `save_state`.  Returns the new in-memory cursor, the new persisted
cursor, and the pass's delivery attempts. -/
def runPass (table : List Row) (failAt : Option Nat) (config : Config)
    (deliverOk : Int → Bool) (saveFail : Bool) (last_rec_id persisted : Int) :
    Except PyExn (Int × Int × List (Int × String × Bool)) :=
  match query_new_notifications table failAt last_rec_id with
  | .error e => .error e
  | .ok notifications =>
    match deliverLoop notifications config deliverOk with
    | .error e => .error e
    | .ok attempts =>
      match notifications.getLast? with
      | none => .ok (last_rec_id, persisted, attempts)
      | some n => .ok (n.rec_id, if saveFail then persisted else n.rec_id, attempts)

/-! ## Theorems -/

/-- C2: on inputs where the plist library raises, or where the loaded
blob is a dict with a numeric (or absent) date and a dict (or absent)
`req`, `parse_notification` indeed returns a complete structure or
`None`; but the claim that it never raises for **all** blob contents is
contradicted by the code: a blob that loads as a non-dictionary raises
`AttributeError` at `plist.get("req", {})`, and a dict blob with a
non-numeric date raises `TypeError` at `cocoa_date + COCOA_TO_UNIX_OFFSET`.
Both escape to the caller, since only the `plistlib.loads` calls are
guarded by `try`. -/
theorem parse_notification_raises_uncaught :
    parse_notification (some (.str "hello")) = .error .attributeError
    ∧ parse_notification (some (.arr [])) = .error .attributeError
    ∧ parse_notification (some (.dict [("date", .str "tomorrow")])) = .error .typeError
    ∧ parse_notification (some (.dict [("req", .str "oops")])) = .error .attributeError
    ∧ parse_notification none = .ok none :=
  ⟨rfl, rfl, rfl, rfl, rfl⟩

/-- C3: for blobs the decoder parses successfully, each missing nested
field (`titl`, `subt`, `body` under `req`) defaults to the empty string,
a missing `date` gives timestamp 0, a missing top-level `app` gives the
empty string, and a present native-epoch date `d` gives exactly
`d + 978307200`; a well-formed blob decodes to exactly its field
values. -/
theorem parse_notification_defaults_and_offset :
    (∀ (a t s b : String) (d : Int),
        parse_notification (some (.dict
          [("app", .str a), ("date", .int d),
           ("req", .dict [("titl", .str t), ("subt", .str s), ("body", .str b)])]))
        = .ok (some ⟨.str a, .str t, .str s, .str b, d + COCOA_TO_UNIX_OFFSET⟩))
    ∧ COCOA_TO_UNIX_OFFSET = 978307200
    ∧ parse_notification (some (.dict []))
        = .ok (some ⟨.str "", .str "", .str "", .str "", 0⟩)
    ∧ parse_notification (some (.dict [("req", .dict [])]))
        = .ok (some ⟨.str "", .str "", .str "", .str "", 0⟩)
    ∧ (∀ (a t s b : String),
        parse_notification (some (.dict
          [("app", .str a),
           ("req", .dict [("titl", .str t), ("subt", .str s), ("body", .str b)])]))
        = .ok (some ⟨.str a, .str t, .str s, .str b, 0⟩))
    ∧ (∀ d : Int,
        parse_notification (some (.dict [("date", .int d), ("req", .dict [])]))
        = .ok (some ⟨.str "", .str "", .str "", .str "", d + 978307200⟩)) :=
  ⟨fun _ _ _ _ _ => rfl, rfl, rfl, rfl, fun _ _ _ _ => rfl, fun _ => rfl⟩

/-- C3 witness: the general statement applied at concrete field values. -/
theorem parse_notification_defaults_and_offset_witness :
    parse_notification (some (.dict
      [("app", .str "com.microsoft.teams2"), ("date", .int 700000000),
       ("req", .dict [("titl", .str "Alice"), ("subt", .str "General"),
                      ("body", .str "Hi")])]))
    = .ok (some ⟨.str "com.microsoft.teams2", .str "Alice", .str "General",
                 .str "Hi", 700000000 + COCOA_TO_UNIX_OFFSET⟩) :=
  parse_notification_defaults_and_offset.1 "com.microsoft.teams2" "Alice" "General" "Hi" 700000000

/-- C4 counterexample: the claimed biconditional "returns 0 iff P > M"
fails at the persisted value P = 0 with source maximum M = 10: the check
returns 0 although P > M does not hold (it returns P unchanged, and P is
0). -/
theorem check_db_consistency_iff_cex :
    dbMaxRecId [10] = 10
    ∧ check_db_consistency [10] 0 = 0
    ∧ ¬ (0 : Int) > (10 : Int) := by
  refine ⟨by decide, by decide, by decide⟩

/-- C4 amended: `check_db_consistency` returns 0 if the persisted value
exceeds the source maximum and otherwise returns the persisted value
unchanged; consequently its result is 0 iff the persisted value exceeds
the maximum **or is itself 0**. -/
theorem check_db_consistency_characterization (recIds : List Int) (P : Int) :
    (dbMaxRecId recIds < P → check_db_consistency recIds P = 0)
    ∧ (P ≤ dbMaxRecId recIds → check_db_consistency recIds P = P)
    ∧ (check_db_consistency recIds P = 0 ↔ dbMaxRecId recIds < P ∨ P = 0) := by
  simp only [check_db_consistency, gt_iff_lt]
  split <;> rename_i h <;> refine ⟨fun _ => by omega, fun _ => by omega, by constructor <;> omega⟩

/-- C4 witness: the spec's two worked examples (persisted 500, max 10
returns 0; persisted 5, max 10 returns 5). -/
theorem check_db_consistency_characterization_witness :
    check_db_consistency [10] 500 = 0 ∧ check_db_consistency [10] 5 = 5 :=
  ⟨(check_db_consistency_characterization [10] 500).1 (by decide),
   (check_db_consistency_characterization [10] 5).2.1 (by decide)⟩

/-- C9: saving a cursor value and loading from the same path returns
exactly that value, for every integer and every prior filesystem state;
loading a path that was never written, a file `json.load` cannot parse,
or a parsed object without the `last_rec_id` field returns 0 without
raising. -/
theorem state_roundtrip_and_defaults :
    (∀ (fs : FS) (path : String) (n : Int),
        load_state (save_state fs n path false) path = .ok n)
    ∧ (∀ (fs : FS) (path : String), fs path = none → load_state fs path = .ok 0)
    ∧ (∀ (fs : FS) (path : String), fs path = some .garbled → load_state fs path = .ok 0)
    ∧ (∀ (fs : FS) (path : String) (entries : List (String × Json)),
        fs path = some (.json (.obj entries)) →
        jsonGet entries "last_rec_id" = none →
        load_state fs path = .ok 0) := by
  refine ⟨fun fs path n => ?_, fun fs path h => ?_, fun fs path h => ?_,
          fun fs path entries h hk => ?_⟩
  · simp [save_state, load_state, pyInt, jsonGet]
  · simp [load_state, h]
  · simp [load_state, h]
  · simp [load_state, h, hk, pyInt]

/-- C9 witness: round trip at 42 on an empty filesystem, and the three
default-to-0 cases at concrete inputs. -/
theorem state_roundtrip_and_defaults_witness :
    load_state (save_state (fun _ => none) 42 "state.json" false) "state.json" = .ok 42
    ∧ load_state (fun _ => none) "state.json" = .ok 0
    ∧ load_state (fun _ => some .garbled) "state.json" = .ok 0
    ∧ load_state (fun _ => some (.json (.obj [("other", .num 7)]))) "state.json" = .ok 0 :=
  ⟨state_roundtrip_and_defaults.1 (fun _ => none) "state.json" 42,
   state_roundtrip_and_defaults.2.1 (fun _ => none) "state.json" rfl,
   state_roundtrip_and_defaults.2.2.1 (fun _ => some .garbled) "state.json" rfl,
   state_roundtrip_and_defaults.2.2.2 (fun _ => some (.json (.obj [("other", .num 7)])))
     "state.json" [("other", .num 7)] rfl rfl⟩

/-- C10: the admission decision of `passes_filter` depends only on the
`app`, `title` and `body` fields; two events agreeing on those three
fields receive the same decision under every configuration, whatever
their `subtitle` and `timestamp`. -/
theorem passes_filter_ignores_subtitle_timestamp
    (n1 n2 : Notif) (config : Config)
    (happ : n1.app = n2.app) (htitle : n1.title = n2.title)
    (hbody : n1.body = n2.body) :
    passes_filter n1 config = passes_filter n2 config := by
  simp only [passes_filter, passes_bundle_id_filter, passes_allowlist_filter,
    is_system_alert, is_noise_notification, happ, htitle, hbody]

/-- C10 witness: two events agreeing on app/title/body but with different
subtitle and timestamp get the same decision. -/
theorem passes_filter_ignores_subtitle_timestamp_witness :
    passes_filter ⟨"com.microsoft.teams2", "Alice", "General | T", "Hi.", 7, 1⟩
        ⟨["com.microsoft.teams2"], "http:"⟩
      = passes_filter ⟨"com.microsoft.teams2", "Alice", "", "Hi.", 0, 2⟩
        ⟨["com.microsoft.teams2"], "http:"⟩ :=
  passes_filter_ignores_subtitle_timestamp
    ⟨"com.microsoft.teams2", "Alice", "General | T", "Hi.", 7, 1⟩
    ⟨"com.microsoft.teams2", "Alice", "", "Hi.", 0, 2⟩
    ⟨["com.microsoft.teams2"], "http:"⟩ rfl rfl rfl

/-- A string's code-point list is empty exactly when it is the empty
string. -/
theorem data_isEmpty_iff (s : String) : s.data.isEmpty = true ↔ s = "" := by
  rw [String.ext_iff]
  cases s with
  | mk l => cases l <;> simp [List.isEmpty]

/-- C5: the truncation flag is set exactly when the body has at least 150
characters and its last character is not sentence-terminating. -/
theorem detect_truncation_characterization (body : String) :
    detect_truncation body = true ↔
      (150 ≤ pyLen body
       ∧ ∀ c, pyLastChar body = some c → SENTENCE_ENDINGS.contains c = false) := by
  unfold detect_truncation
  by_cases h1 : pyLen body < 150
  · simp only [if_pos h1]
    constructor
    · intro h; cases h
    · rintro ⟨h2, -⟩; omega
  · rw [if_neg h1]
    cases hc : pyLastChar body with
    | none =>
      simp only [hc]
      simp only [if_neg (by simp : ¬ (false = true))]
      constructor
      · intro _
        exact ⟨by omega, fun c h => by cases h⟩
      · intro _; trivial
    | some c0 =>
      simp only [hc]
      by_cases h2 : SENTENCE_ENDINGS.contains c0 = true
      · rw [if_pos h2]
        constructor
        · intro h; cases h
        · rintro ⟨-, hall⟩
          have := hall c0 rfl
          rw [h2] at this
          cases this
      · rw [if_neg h2]
        constructor
        · intro _
          refine ⟨by omega, fun c h => ?_⟩
          injection h with h
          subst h
          exact Bool.eq_false_iff.mpr h2
        · intro _; rfl

/-- C5 witness: the spec's boundary cases — a 149-character body ending
in a letter is not truncated, a 150-character one is, and a 300-character
body ending in a question mark is not. -/
theorem detect_truncation_characterization_witness :
    detect_truncation (String.mk (List.replicate 149 'a')) = false
    ∧ detect_truncation (String.mk (List.replicate 150 'a')) = true
    ∧ detect_truncation (String.mk (List.replicate 299 'a' ++ ['?'])) = false := by
  refine ⟨?_, ?_, ?_⟩
  · have h := detect_truncation_characterization (String.mk (List.replicate 149 'a'))
    rw [Bool.eq_false_iff]
    intro hT
    exact absurd (h.mp hT).1 (by decide)
  · exact (detect_truncation_characterization (String.mk (List.replicate 150 'a'))).mpr
      ⟨by decide, by decide⟩
  · have h := detect_truncation_characterization (String.mk (List.replicate 299 'a' ++ ['?']))
    rw [Bool.eq_false_iff]
    intro hT
    exact absurd ((h.mp hT).2 '?' (by decide)) (by decide)

/-- A string's code-point list is non-empty exactly when the string is
not the empty string. -/
theorem data_isEmpty_false_iff (s : String) : s.data.isEmpty = false ↔ s ≠ "" := by
  constructor
  · intro h hs
    rw [hs] at h
    simp [List.isEmpty] at h
  · intro h
    cases hq : s.data.isEmpty
    · rfl
    · exact absurd ((data_isEmpty_iff s).mp hq) h

/-- A string equals the empty string exactly when its code-point list is
`[]`. -/
theorem data_eq_nil_iff (s : String) : s.data = [] ↔ s = "" := by
  rw [String.ext_iff]

/-- C6: classification follows the exact priority order of the claim —
`@` in the body gives `mention`; otherwise a non-empty trimmed subtitle
containing a separator, or differing from the trimmed title, gives
`channel_message`; otherwise `direct_message`. -/
theorem classify_notification_priority (n : Notif) :
    (classify_notification n = "mention" ↔ pyContainsChar n.body '@' = true)
    ∧ (classify_notification n = "channel_message" ↔
        (pyContainsChar n.body '@' = false
         ∧ pyStrip n.subtitle ≠ ""
         ∧ (pyContainsChar (pyStrip n.subtitle) '|' = true
            ∨ pyContainsChar (pyStrip n.subtitle) '>' = true
            ∨ pyStrip n.subtitle ≠ pyStrip n.title)))
    ∧ (classify_notification n = "direct_message" ↔
        (pyContainsChar n.body '@' = false
         ∧ (pyStrip n.subtitle = ""
            ∨ (pyContainsChar (pyStrip n.subtitle) '|' = false
               ∧ pyContainsChar (pyStrip n.subtitle) '>' = false
               ∧ pyStrip n.subtitle = pyStrip n.title)))) := by
  cases hb : pyContainsChar n.body '@' <;>
    cases hE : (pyStrip n.subtitle).data.isEmpty <;>
      cases hP : pyContainsChar (pyStrip n.subtitle) '|' <;>
        cases hG : pyContainsChar (pyStrip n.subtitle) '>' <;>
          by_cases hT : pyStrip n.subtitle = pyStrip n.title <;>
            simp_all [classify_notification, data_isEmpty_iff, data_isEmpty_false_iff,
              data_eq_nil_iff]

/-- C6 witness: the claim's concrete scenarios — a body containing `@`
is a mention whatever the subtitle; a piped subtitle with an `@`-free
body is a channel message; an empty or title-identical subtitle with no
`@` and no separator is a direct message. -/
theorem classify_notification_priority_witness :
    classify_notification ⟨"a", "Alice", "General | Team X", "see you @3pm", 0, 1⟩ = "mention"
    ∧ classify_notification ⟨"a", "Alice", "General | Team X", "hello", 0, 1⟩ = "channel_message"
    ∧ classify_notification ⟨"a", "Alice", "Alice", "hello", 0, 1⟩ = "direct_message"
    ∧ classify_notification ⟨"a", "Alice", "", "hello", 0, 1⟩ = "direct_message" :=
  ⟨(classify_notification_priority _).1.mpr (by decide),
   (classify_notification_priority _).2.1.mpr ⟨by decide, by decide, Or.inl (by decide)⟩,
   (classify_notification_priority _).2.2.mpr ⟨by decide, Or.inr ⟨by decide, by decide, by decide⟩⟩,
   (classify_notification_priority _).2.2.mpr ⟨by decide, Or.inl (by decide)⟩⟩

/-- C7: the four-stage filter admits an event exactly when the source app
is in the configured set, the trimmed title and body are non-empty, the
trimmed title is not the sentinel `"Microsoft Teams"`, and the trimmed
body neither starts with nor equals any noise pattern; a body trimming to
`"Liked"` and a title trimming to `"Microsoft Teams"` are always
rejected. -/
theorem passes_filter_characterization (n : Notif) (config : Config) :
    (passes_filter n config = true ↔
      (config.bundle_ids.contains n.app = true
       ∧ pyStrip n.title ≠ ""
       ∧ pyStrip n.body ≠ ""
       ∧ pyStrip n.title ≠ "Microsoft Teams"
       ∧ ∀ pat ∈ NOISE_PATTERNS,
           ¬(pyStartsWith (pyStrip n.body) pat = true ∨ pyStrip n.body = pat)))
    ∧ (pyStrip n.body = "Liked" → passes_filter n config = false)
    ∧ (pyStrip n.title = "Microsoft Teams" → passes_filter n config = false) := by
  have hchain : passes_filter n config = true ↔
      (passes_bundle_id_filter n config.bundle_ids = true
       ∧ passes_allowlist_filter n = true
       ∧ is_system_alert n = false
       ∧ is_noise_notification n.body n.title = false) := by
    unfold passes_filter
    cases hA : passes_bundle_id_filter n config.bundle_ids <;>
      cases hB : passes_allowlist_filter n <;>
        cases hC : is_system_alert n <;>
          cases hD : is_noise_notification n.body n.title <;> simp
  have hallow : passes_allowlist_filter n = true ↔
      (pyStrip n.title ≠ "" ∧ pyStrip n.body ≠ "") := by
    simp [passes_allowlist_filter, data_isEmpty_false_iff, data_eq_nil_iff]
  have hsys : is_system_alert n = true ↔ pyStrip n.title = "Microsoft Teams" := by
    simp [is_system_alert]
  have hnoise : is_noise_notification n.body n.title = true ↔
      ∃ pat ∈ NOISE_PATTERNS,
        (pyStartsWith (pyStrip n.body) pat = true ∨ pyStrip n.body = pat) := by
    simp [is_noise_notification, List.any_eq_true]
  have hbf : ∀ b : Bool, b = false ↔ ¬ b = true := by intro b; cases b <;> simp
  have hiff : passes_filter n config = true ↔
      (config.bundle_ids.contains n.app = true
       ∧ pyStrip n.title ≠ ""
       ∧ pyStrip n.body ≠ ""
       ∧ pyStrip n.title ≠ "Microsoft Teams"
       ∧ ∀ pat ∈ NOISE_PATTERNS,
           ¬(pyStartsWith (pyStrip n.body) pat = true ∨ pyStrip n.body = pat)) := by
    rw [hchain, hallow, hbf (is_system_alert n), hbf (is_noise_notification n.body n.title),
      hsys, hnoise]
    simp only [not_exists, not_and]
    constructor
    · rintro ⟨hA, ⟨ht, hb⟩, hs, hn⟩
      exact ⟨hA, ht, hb, hs, hn⟩
    · rintro ⟨hA, ht, hb, hs, hn⟩
      exact ⟨hA, ⟨ht, hb⟩, hs, hn⟩
  refine ⟨hiff, ?_, ?_⟩
  · intro h
    cases hpf : passes_filter n config
    · rfl
    · obtain ⟨-, -, -, -, hno⟩ := hiff.mp hpf
      exact absurd (Or.inr h) (hno "Liked" (by decide))
  · intro h
    cases hpf : passes_filter n config
    · rfl
    · obtain ⟨-, -, -, hms, -⟩ := hiff.mp hpf
      exact absurd h hms

/-- C7 witness: the claim's concrete scenarios at a Teams config — a
normal message passes; a body exactly `"Liked"` and a title
`"Microsoft Teams"` are rejected. -/
theorem passes_filter_characterization_witness :
    passes_filter ⟨"com.microsoft.teams2", "Alice", "", "Hello.", 0, 1⟩
      ⟨["com.microsoft.teams2"], "http:"⟩ = true
    ∧ passes_filter ⟨"com.microsoft.teams2", "Alice", "", "Liked", 0, 1⟩
      ⟨["com.microsoft.teams2"], "http:"⟩ = false
    ∧ passes_filter ⟨"com.microsoft.teams2", "Microsoft Teams", "", "Hello.", 0, 1⟩
      ⟨["com.microsoft.teams2"], "http:"⟩ = false :=
  ⟨(passes_filter_characterization _ _).1.mpr
    ⟨by decide, by decide, by decide, by decide, by decide⟩,
   (passes_filter_characterization _ _).2.1 (by decide),
   (passes_filter_characterization _ _).2.2 (by decide)⟩

/-- The SQL result of the reader's query is sorted ascending by `rec_id`
(`ORDER BY r.rec_id ASC`). -/
theorem sqlRows_pairwise (table : List Row) (last : Int) :
    (sqlRows table last).Pairwise rowLe :=
  List.sorted_insertionSort rowLe _

/-- Every notification produced by the row loop takes its `rec_id` from
one of the processed rows. -/
theorem processRows_mem {rows : List Row} {l : List RawNotif}
    (h : processRows rows = .ok l) :
    ∀ x ∈ l, ∃ r ∈ rows, x.rec_id = r.rec_id := by
  induction rows generalizing l with
  | nil =>
    cases h
    intro x hx
    cases hx
  | cons row rest ih =>
    simp only [processRows] at h
    cases hp : parse_notification row.data with
    | error e =>
      rw [hp] at h
      cases h
    | ok o =>
      rw [hp] at h
      cases o with
      | none =>
        intro x hx
        obtain ⟨r, hr, he⟩ := ih h x hx
        exact ⟨r, List.mem_cons_of_mem _ hr, he⟩
      | some ev =>
        cases hr : processRows rest with
        | error e =>
          rw [hr] at h
          cases h
        | ok l1 =>
          rw [hr] at h
          cases h
          intro x hx
          rcases List.mem_cons.mp hx with hx | hx
          · subst hx
            exact ⟨row, List.mem_cons_self _ _, rfl⟩
          · obtain ⟨r, hrm, he⟩ := ih hr x hx
            exact ⟨r, List.mem_cons_of_mem _ hrm, he⟩

/-- The row loop preserves ascending `rec_id` order. -/
theorem processRows_pairwise {rows : List Row} {l : List RawNotif}
    (hs : rows.Pairwise rowLe) (h : processRows rows = .ok l) :
    l.Pairwise (fun a b => a.rec_id ≤ b.rec_id) := by
  induction rows generalizing l with
  | nil =>
    cases h
    exact List.Pairwise.nil
  | cons row rest ih =>
    simp only [processRows] at h
    cases hp : parse_notification row.data with
    | error e =>
      rw [hp] at h
      cases h
    | ok o =>
      rw [hp] at h
      cases o with
      | none => exact ih hs.of_cons h
      | some ev =>
        cases hr : processRows rest with
        | error e =>
          rw [hr] at h
          cases h
        | ok l1 =>
          rw [hr] at h
          cases h
          refine List.pairwise_cons.mpr ⟨?_, ih hs.of_cons hr⟩
          intro y hy
          obtain ⟨r, hrm, he⟩ := processRows_mem hr y hy
          have := (List.pairwise_cons.mp hs).1 r hrm
          simpa [he] using this

/-- In a list sorted ascending by `rec_id`, the last element has the
maximal `rec_id`. -/
theorem pairwise_getLast_max {l : List RawNotif}
    (h : l.Pairwise (fun a b => a.rec_id ≤ b.rec_id)) (m : RawNotif)
    (hm : l.getLast? = some m) : ∀ x ∈ l, x.rec_id ≤ m.rec_id := by
  induction l with
  | nil => cases hm
  | cons a rest ih =>
    cases rest with
    | nil =>
      cases hm
      intro x hx
      rcases List.mem_cons.mp hx with hx | hx
      · subst hx; exact le_refl _
      · cases hx
    | cons b rest2 =>
      rw [List.getLast?_cons_cons] at hm
      have hmm : m ∈ b :: rest2 := by
        have hne : (b :: rest2) ≠ ([] : List RawNotif) := by simp
        have hg := List.getLast?_eq_getLast_of_ne_nil hne
        rw [hm] at hg
        rw [Option.some.inj hg]
        exact List.getLast_mem hne
      intro x hx
      rcases List.mem_cons.mp hx with hx | hx
      · subst hx
        exact (List.pairwise_cons.mp h).1 m hmm
      · exact ih (List.pairwise_cons.mp h).2 hm x hx

/-- The delivery loop never raises when all parsed fields are strings. -/
theorem deliverLoop_ok (l : List RawNotif) (config : Config) (deliverOk : Int → Bool)
    (h : ∀ rn ∈ l, strFields rn = true) :
    ∃ atts, deliverLoop l config deliverOk = .ok atts := by
  induction l with
  | nil => exact ⟨[], rfl⟩
  | cons rn rest ih =>
    obtain ⟨atts, hatts⟩ := ih (fun x hx => h x (List.mem_cons_of_mem _ hx))
    have hrn := h rn (List.mem_cons_self _ _)
    have hto : ∃ nt, toNotif rn = .ok nt := by
      unfold strFields at hrn
      cases hT : rn.ev.title <;> cases hS : rn.ev.subtitle <;> cases hB : rn.ev.body <;>
        simp_all [toNotif]
    obtain ⟨nt, hnt⟩ := hto
    simp only [deliverLoop, hnt, hatts]
    cases hpf : passes_filter nt config <;>
      cases hw : config.webhook_url.data.isEmpty <;>
        simp [hpf, hw, hatts]

/-- Stopping the row loop after `k` rows yields a prefix of the clean
result. -/
theorem processRows_take_initial (rows : List Row) (k : Nat) {l : List RawNotif}
    (h : processRows rows = .ok l) :
    ∃ l', processRows (rows.take k) = .ok l' ∧ l' <+: l := by
  induction rows generalizing k l with
  | nil =>
    cases h
    exact ⟨[], by simp [processRows], List.nil_prefix⟩
  | cons row rest ih =>
    cases k with
    | zero => exact ⟨[], rfl, List.nil_prefix⟩
    | succ k' =>
      rw [List.take_succ_cons]
      simp only [processRows] at h ⊢
      cases hp : parse_notification row.data with
      | error e =>
        rw [hp] at h
        exact Except.noConfusion h
      | ok o =>
        rw [hp] at h
        cases o with
        | none => exact ih k' h
        | some ev =>
          cases hr : processRows rest with
          | error e =>
            rw [hr] at h
            exact Except.noConfusion h
          | ok l1 =>
            rw [hr] at h
            have hl : l = { app := row.identifier, ev := ev, rec_id := row.rec_id } :: l1 :=
              (Except.ok.inj h).symm
            subst hl
            obtain ⟨l1', hl1', hpre⟩ := ih k' hr
            rw [hl1']
            refine ⟨_ :: l1', rfl, ?_⟩
            obtain ⟨t, ht⟩ := hpre
            exact ⟨t, by rw [List.cons_append, ht]⟩

/-- C8 counterexample: a query failure that strikes while the result rows
are being stepped (here: after the first row) makes the reader return the
partial batch accumulated so far — a non-empty sequence — contradicting
the claim that a query failure always yields an empty sequence. -/
theorem query_failure_partial_batch_cex :
    query_new_notifications
      [⟨101, some (.dict [("req", .dict [("titl", .str "Alice"), ("body", .str "Hello.")])]),
        "com.microsoft.teams2"⟩] (some 1) 0
      = .ok [⟨"com.microsoft.teams2", ⟨.str "", .str "Alice", .str "", .str "Hello.", 0⟩, 101⟩]
    ∧ ([⟨"com.microsoft.teams2", ⟨.str "", .str "Alice", .str "", .str "Hello.", 0⟩, 101⟩]
        : List RawNotif) ≠ [] :=
  ⟨rfl, by simp⟩

/-- C8 amended: a query failure at `execute` time (before any row is
stepped) yields an empty sequence; a failure while stepping yields the
prefix of rows read so far; in either case the error is caught (never
fatal), and a failure before any row leaves both cursors and the
delivery list of the pass untouched. -/
theorem query_failure_amended :
    (∀ (table : List Row) (last : Int),
        query_new_notifications table (some 0) last = .ok [])
    ∧ (∀ (table : List Row) (last : Int) (k : Nat) (l : List RawNotif),
        query_new_notifications table none last = .ok l →
        ∃ l', query_new_notifications table (some k) last = .ok l' ∧ l' <+: l)
    ∧ (∀ (table : List Row) (config : Config) (deliverOk : Int → Bool)
        (saveFail : Bool) (last persisted : Int),
        runPass table (some 0) config deliverOk saveFail last persisted
          = .ok (last, persisted, [])) :=
  ⟨fun _ _ => rfl,
   fun _ _ k _ h => processRows_take_initial _ k h,
   fun _ _ _ _ _ _ => rfl⟩

/-- C8 witness: the amended statement at a concrete one-row table — a
failure at `execute` returns the empty batch and leaves the pass's
cursors at (0, 0); a mid-iteration failure returns a prefix of the clean
result. -/
theorem query_failure_amended_witness :
    query_new_notifications
      [⟨101, some (.dict [("req", .dict [("titl", .str "Alice"), ("body", .str "Hello.")])]),
        "com.microsoft.teams2"⟩] (some 0) 0 = .ok []
    ∧ runPass
        [⟨101, some (.dict [("req", .dict [("titl", .str "Alice"), ("body", .str "Hello.")])]),
          "com.microsoft.teams2"⟩] (some 0)
        ⟨["com.microsoft.teams2"], "http:"⟩ (fun _ => true) false 0 0
        = .ok (0, 0, [])
    ∧ ∃ l', query_new_notifications
        [⟨101, some (.dict [("req", .dict [("titl", .str "Alice"), ("body", .str "Hello.")])]),
          "com.microsoft.teams2"⟩] (some 1) 0 = .ok l'
        ∧ l' <+: [⟨"com.microsoft.teams2", ⟨.str "", .str "Alice", .str "", .str "Hello.", 0⟩, 101⟩] :=
  ⟨query_failure_amended.1 _ 0,
   query_failure_amended.2.2 _ ⟨["com.microsoft.teams2"], "http:"⟩ (fun _ => true) false 0 0,
   query_failure_amended.2.1 _ 0 1 _ rfl⟩

/-- C1 counterexample: a batch whose highest-`rec_id` row fails to decode.
The query returns rows 101 and 102, row 102's blob does not parse, and
the pass leaves both cursors at 101 — not at the queried maximum 102
(the code takes `notifications[-1]["rec_id"]` over the *decoded* rows
only, and a batch whose rows all fail to decode would not advance the
cursor at all). -/
theorem pass_cursor_skips_undecoded_max_cex :
    runPass
      [⟨101, some (.dict [("req", .dict [("titl", .str "Alice"), ("body", .str "Hello.")])]),
        "com.microsoft.teams2"⟩,
       ⟨102, none, "com.microsoft.teams2"⟩] none
      ⟨["com.microsoft.teams2"], "http:"⟩ (fun _ => true) false 0 0
      = .ok (101, 101, [(101, "direct_message", true)])
    ∧ (sqlRows
        [⟨101, some (.dict [("req", .dict [("titl", .str "Alice"), ("body", .str "Hello.")])]),
          "com.microsoft.teams2"⟩,
         ⟨102, none, "com.microsoft.teams2"⟩] 0).map Row.rec_id = [101, 102]
    ∧ (101 : Int) ≠ 102 :=
  ⟨rfl, rfl, by decide⟩

/-- C1 amended: after a pass whose query succeeds and decodes at least
one row (with string-typed fields), the in-memory and persisted cursors
both advance to the maximum `rec_id` among the **successfully decoded**
rows of the batch, for every configuration and every delivery outcome —
filter rejections and delivery failures never affect the cursor. -/
theorem pass_cursor_advances_to_max_decoded
    (table : List Row) (config : Config) (deliverOk : Int → Bool)
    (last persisted : Int) (notifs : List RawNotif)
    (hq : query_new_notifications table none last = .ok notifs)
    (hne : notifs ≠ [])
    (hstr : ∀ rn ∈ notifs, strFields rn = true) :
    ∃ c atts,
      runPass table none config deliverOk false last persisted = .ok (c, c, atts)
      ∧ (∃ n ∈ notifs, c = n.rec_id)
      ∧ (∀ n ∈ notifs, n.rec_id ≤ c) := by
  obtain ⟨atts, hd⟩ := deliverLoop_ok notifs config deliverOk hstr
  have hp : notifs.Pairwise (fun a b => a.rec_id ≤ b.rec_id) :=
    processRows_pairwise (sqlRows_pairwise table last) hq
  have hgl := List.getLast?_eq_getLast_of_ne_nil hne
  refine ⟨(notifs.getLast hne).rec_id, atts, ?_, ?_, ?_⟩
  · simp only [runPass, hq, hd, hgl]
    rfl
  · exact ⟨_, List.getLast_mem hne, rfl⟩
  · exact pairwise_getLast_max hp _ hgl

/-- C1 witness: the spec's end-to-end scenario — fresh cursor 0, rows
101, 102, 103, row 102 fails to decode, rows 101 and 103 pass the filter:
two deliveries are attempted and both cursors end at exactly 103. -/
theorem pass_cursor_advances_to_max_decoded_witness :
    runPass
      [⟨101, some (.dict [("req", .dict [("titl", .str "Alice"), ("body", .str "Hello.")])]),
        "com.microsoft.teams2"⟩,
       ⟨102, none, "com.microsoft.teams2"⟩,
       ⟨103, some (.dict [("req", .dict [("titl", .str "Alice"), ("body", .str "Bye.")])]),
        "com.microsoft.teams2"⟩] none
      ⟨["com.microsoft.teams2"], "http:"⟩ (fun _ => true) false 0 0
      = .ok (103, 103, [(101, "direct_message", true), (103, "direct_message", true)])
    ∧ ∃ c atts,
        runPass
          [⟨101, some (.dict [("req", .dict [("titl", .str "Alice"), ("body", .str "Hello.")])]),
            "com.microsoft.teams2"⟩,
           ⟨102, none, "com.microsoft.teams2"⟩,
           ⟨103, some (.dict [("req", .dict [("titl", .str "Alice"), ("body", .str "Bye.")])]),
            "com.microsoft.teams2"⟩] none
          ⟨["com.microsoft.teams2"], "http:"⟩ (fun _ => true) false 0 0 = .ok (c, c, atts)
        ∧ (∃ n ∈ ([⟨"com.microsoft.teams2", ⟨.str "", .str "Alice", .str "", .str "Hello.", 0⟩, 101⟩,
                   ⟨"com.microsoft.teams2", ⟨.str "", .str "Alice", .str "", .str "Bye.", 0⟩, 103⟩]
                  : List RawNotif), c = n.rec_id)
        ∧ (∀ n ∈ ([⟨"com.microsoft.teams2", ⟨.str "", .str "Alice", .str "", .str "Hello.", 0⟩, 101⟩,
                   ⟨"com.microsoft.teams2", ⟨.str "", .str "Alice", .str "", .str "Bye.", 0⟩, 103⟩]
                  : List RawNotif), n.rec_id ≤ c) :=
  ⟨rfl,
   pass_cursor_advances_to_max_decoded _ ⟨["com.microsoft.teams2"], "http:"⟩ (fun _ => true) 0 0
     [⟨"com.microsoft.teams2", ⟨.str "", .str "Alice", .str "", .str "Hello.", 0⟩, 101⟩,
      ⟨"com.microsoft.teams2", ⟨.str "", .str "Alice", .str "", .str "Bye.", 0⟩, 103⟩]
     rfl (by simp) (by decide)⟩

end Nchook
